import Mathlib

/-!
# Verification of the Data-Governance-Framework repository

Shallow embedding of the parts of the repository exercised by the frozen
claims:

* `src/quality/data_quality_validator.py` — the five data-quality check
  methods and `generate_dq_report`;
* `src/lineage/lineage_tracker.py` — the `networkx.DiGraph`-backed lineage
  graph, `get_upstream_lineage` / `get_downstream_lineage`, and the query-text
  source/target table extraction heuristics;
* `src/metadata/metadata_extractor.py` — `extract_table_statistics`.

Modelling conventions:

* SQL counts are `Nat`; fractional quantities computed by Python's float
  arithmetic (percentages, ratios, thresholds) are idealised as exact `ℚ`.
  The `round(x, n)` display rounding Python applies when *storing* a ratio
  into a result record is omitted: statuses in the source are always decided
  on the unrounded value, and the embedded record keeps that unrounded value.
* Each check method's database interaction goes through
  `connection.execute_query`; the rows a query returns (or the exception it
  raises) are inputs of the embedded function, as `Except String _` values,
  one oracle per distinct query the method issues.
* Python `str` is embedded as `List Char` (`PyStr`), so Python's substring
  `split`, whitespace `split()`, `strip` and `in` have direct
  kernel-computable counterparts.
* Python `set` is embedded as a duplicate-free `List` built by `setAdd`
  (add-if-absent); only membership is meaningful, matching `set` semantics.
-/

/-- Python strings, embedded as their character lists. -/
abbrev PyStr := List Char

namespace Py

/-- Worker for `pySplit`: accumulate the current piece (reversed) while
scanning, cutting at each leftmost, non-overlapping occurrence of `sep`,
exactly like Python's `str.split(sep)` for a non-empty `sep`.  The `fuel`
argument only makes the recursion structural (the scanned string shrinks by
at least one character per step, so any `fuel ≥ s.length` is enough); the
fuel-exhausted branch is unreachable when `pySplitGo` is called through
`pySplit`. -/
def pySplitGo (sep : PyStr) : Nat → PyStr → PyStr → List PyStr
  | _, acc, [] => [acc.reverse]
  | 0, acc, s => [acc.reverse ++ s]
  | fuel + 1, acc, c :: rest =>
    if sep.isPrefixOf (c :: rest) then
      acc.reverse :: pySplitGo sep fuel [] (rest.drop (sep.length - 1))
    else
      pySplitGo sep fuel (c :: acc) rest

/-- Python `text.split(sep)` for non-empty `sep`. -/
def pySplit (sep text : PyStr) : List PyStr :=
  pySplitGo sep text.length [] text

/-- Python `sep in text` (substring containment). -/
def containsSub (sep : PyStr) : PyStr → Bool
  | [] => sep.isEmpty
  | c :: rest => sep.isPrefixOf (c :: rest) || containsSub sep rest

/-- Python `s.split()` (no argument): split on whitespace runs, dropping
empty pieces; `s.strip().split()` agrees with it. -/
def pyWords (s : PyStr) : List PyStr :=
  (List.splitOnP Char.isWhitespace s).filter (fun w => ¬ w.isEmpty)

/-- Python `s.strip(chars)`: remove leading and trailing characters drawn
from `chars`. -/
def pyStrip (chars : PyStr) (s : PyStr) : PyStr :=
  ((s.dropWhile (· ∈ chars)).reverse.dropWhile (· ∈ chars)).reverse

/-- Python `set.add` on a duplicate-free list: append the element if absent. -/
def setAdd (s : List PyStr) (x : PyStr) : List PyStr :=
  if x ∈ s then s else s ++ [x]

theorem mem_setAdd (s : List PyStr) (x y : PyStr) :
    y ∈ setAdd s x ↔ y ∈ s ∨ y = x := by
  unfold setAdd
  split <;> rename_i h
  · constructor
    · exact Or.inl
    · rintro (hy | rfl) <;> assumption
  · simp

end Py

/-!
## Lineage tracker (`src/lineage/lineage_tracker.py`)
-/

namespace LineageTracker

open Py

/-- The keyword list of `_extract_source_tables`
(`lineage_tracker.py:173`). -/
def sourceKeywords : List PyStr :=
  ["FROM".toList, "JOIN".toList, "INNER JOIN".toList, "LEFT JOIN".toList,
   "RIGHT JOIN".toList, "FULL JOIN".toList]

/-- The punctuation `strip`ped from a candidate token: `'(),;'`. -/
def tablePunct : PyStr := "(),;".toList

/-- Inner loop of `_extract_source_tables` for one keyword: for every part
after a keyword occurrence, take the first whitespace token, strip `'(),;'`,
and add it to the set when it contains a `'.'`
(`lineage_tracker.py:177-184`). -/
def sourceScanKeyword (query_text : PyStr) (sources : List PyStr)
    (keyword : PyStr) : List PyStr :=
  ((pySplit keyword query_text).drop 1).foldl (fun sources part =>
    match (pyWords part).head? with
    | none => sources
    | some tok =>
      let table_name := pyStrip tablePunct tok
      if table_name.contains '.' then setAdd sources table_name else sources)
    sources

/-- `LineageTracker._extract_source_tables` (`lineage_tracker.py:168-186`):
for each keyword present in the query text, collect the dot-containing
stripped first tokens of every split part after an occurrence. -/
def extract_source_tables (query_text : PyStr) : List PyStr :=
  sourceKeywords.foldl (fun sources keyword =>
    if containsSub keyword query_text then
      sourceScanKeyword query_text sources keyword
    else sources) []

/-- One branch of `_extract_target_tables`: for `INSERT INTO` and
`MERGE INTO`, every part's first token is stripped and added
(`lineage_tracker.py:193-198,207-212`). -/
def targetScanPlain (query_text : PyStr) (keyword : PyStr)
    (targets : List PyStr) : List PyStr :=
  if containsSub keyword query_text then
    ((pySplit keyword query_text).drop 1).foldl (fun targets part =>
      match (pyWords part).head? with
      | none => targets
      | some tok => setAdd targets (pyStrip tablePunct tok)) targets
  else targets

/-- The `CREATE TABLE` branch of `_extract_target_tables`: the raw first
token is first tested against `['IF', 'OR']` and skipped when it matches
(`lineage_tracker.py:200-205`). -/
def targetScanCreate (query_text : PyStr) (targets : List PyStr) : List PyStr :=
  if containsSub "CREATE TABLE".toList query_text then
    ((pySplit "CREATE TABLE".toList query_text).drop 1).foldl
      (fun targets part =>
        match (pyWords part).head? with
        | none => targets
        | some tok =>
          if tok = "IF".toList ∨ tok = "OR".toList then targets
          else setAdd targets (pyStrip tablePunct tok)) targets
  else targets

/-- `LineageTracker._extract_target_tables` (`lineage_tracker.py:188-214`). -/
def extract_target_tables (query_text : PyStr) : List PyStr :=
  targetScanPlain query_text "MERGE INTO".toList
    (targetScanCreate query_text
      (targetScanPlain query_text "INSERT INTO".toList []))

/-- Kind tag carried by a lineage edge (`type='DIRECT'` at
`lineage_tracker.py:86`, `type='QUERY_BASED'` at `lineage_tracker.py:157`). -/
inductive EdgeKind where
  | DIRECT
  | QUERY_BASED
  deriving DecidableEq, Repr

/-- Model of the `networkx.DiGraph` held in `LineageTracker.lineage_graph`
(`lineage_tracker.py:26`): a *simple* directed graph.  `networkx.DiGraph`
stores at most one edge per ordered node pair; `add_edge` on an existing
pair only updates the edge's attribute dict.  Nodes and edges are kept as
duplicate-free lists; the `query_id` edge attribute is not modelled (no
claim mentions it). -/
structure DiGraph where
  nodes : List String
  edges : List (String × String × EdgeKind)
  deriving DecidableEq, Repr

namespace DiGraph

/-- The empty graph `nx.DiGraph()`. -/
def empty : DiGraph := ⟨[], []⟩

/-- `networkx` node insertion: add the node if absent. -/
def add_node (g : DiGraph) (u : String) : DiGraph :=
  if u ∈ g.nodes then g else { g with nodes := g.nodes ++ [u] }

/-- Is there an edge from `u` to `v` (of any kind)? -/
def hasEdge (g : DiGraph) (u v : String) : Bool :=
  g.edges.any (fun e => e.1 = u ∧ e.2.1 = v)

/-- `networkx.DiGraph.add_edge(u, v, **attrs)`: insert both endpoints if
absent; if the `(u, v)` edge already exists only its attributes are updated
(here: the kind tag is overwritten), otherwise the edge is appended. -/
def add_edge (g : DiGraph) (u v : String) (kind : EdgeKind) : DiGraph :=
  let g := (g.add_node u).add_node v
  if g.hasEdge u v then
    { g with edges := g.edges.map (fun e =>
        if e.1 = u ∧ e.2.1 = v then (u, v, kind) else e) }
  else
    { g with edges := g.edges ++ [(u, v, kind)] }

/-- `networkx.DiGraph.predecessors(n)`: sources of the edges into `n`. -/
def predecessors (g : DiGraph) (n : String) : List String :=
  (g.edges.filter (fun e => e.2.1 = n)).map (fun e => e.1)

/-- `networkx.DiGraph.successors(n)`: targets of the edges out of `n`. -/
def successors (g : DiGraph) (n : String) : List String :=
  (g.edges.filter (fun e => e.1 = n)).map (fun e => e.2.1)

/-- `table_name in self.lineage_graph`: node membership. -/
def mem (g : DiGraph) (n : String) : Bool := n ∈ g.nodes

end DiGraph

/-- Result of `get_upstream_lineage` / `get_downstream_lineage`: either the
bare `{}` returned on a lookup miss (`lineage_tracker.py:240-242,275-277`)
or the populated dict.  Each ancestor/descendant entry of the Python dict
also carries the constant `'relationship'` tag, kept here as the `String`
component of each pair. -/
inductive LineageResult where
  | empty
  | found (table : String) (related : List (String × String))
  deriving DecidableEq, Repr

/-- The `'ancestors'` / `'descendants'` list of a lineage result; the bare
`{}` of a lookup miss has none. -/
def LineageResult.relatedList : LineageResult → List (String × String)
  | .empty => []
  | .found _ r => r

/-- `LineageTracker.get_upstream_lineage(table_name, max_depth)`
(`lineage_tracker.py:229-262`): on a lookup miss, log a warning and return
`{}`; otherwise list the graph's immediate predecessors, each tagged
`'DIRECT_UPSTREAM'`.  `max_depth` is accepted but never read in the body.
The body's `try/except` cannot fire in this pure model (the graph is local
state, no query is issued). -/
def get_upstream_lineage (g : DiGraph) (table_name : String)
    (max_depth : Nat := 5) : LineageResult :=
  if g.mem table_name then
    LineageResult.found table_name
      ((g.predecessors table_name).map (fun p => (p, "DIRECT_UPSTREAM")))
  else
    LineageResult.empty

/-- `LineageTracker.get_downstream_lineage(table_name, max_depth)`
(`lineage_tracker.py:264-297`): mirror image of `get_upstream_lineage`
over successors, tagged `'DIRECT_DOWNSTREAM'`. -/
def get_downstream_lineage (g : DiGraph) (table_name : String)
    (max_depth : Nat := 5) : LineageResult :=
  if g.mem table_name then
    LineageResult.found table_name
      ((g.successors table_name).map (fun s => (s, "DIRECT_DOWNSTREAM")))
  else
    LineageResult.empty

end LineageTracker

/-!
## Data-quality validator (`src/quality/data_quality_validator.py`)

Each check method issues its queries through `connection.execute_query`
inside a `try`, and on any exception returns the record
`{'check_type': ..., 'table': ..., 'status': 'ERROR', 'error': str(e)}`.
The embedding passes every query's outcome in as an `Except String _`
oracle, chains them in the `Except` monad exactly in the order the source
executes them (`check_*_body`), and wraps the result
(`check_*`): a monadic failure becomes the `ERROR` record.
-/

namespace DataQualityValidator

/-- The status strings used by the validator. -/
inductive Status where
  | PASSED
  | FAILED
  | ERROR
  deriving DecidableEq, Repr

/-- The `{'status': 'ERROR', 'error': ...}` record every check method
returns from its `except` clause
(e.g. `data_quality_validator.py:101-106`). -/
structure ErrorRecord where
  check_type : String
  table : String
  status : Status
  error : String
  deriving DecidableEq, Repr

/-- Outcome of one check method: the structured result of the `try` body,
or the `ERROR` record.  The method itself never raises. -/
inductive DQOutcome (α : Type) where
  | ok (r : α)
  | failed (e : ErrorRecord)
  deriving DecidableEq, Repr

/-- Per-column entry of a completeness result
(`data_quality_validator.py:87-94`).  `null_percentage` is the value the
null-count query computes (`COUNT(*) * 100.0 / total_rows`); `completeness`
is `1 - null_percentage / 100.0` (`data_quality_validator.py:81`).  The
`round(·, 2)` / `round(·, 4)` applied when storing are display-only and
omitted; the status is decided on the unrounded value in the source. -/
structure ColumnCompleteness where
  column_name : String
  null_count : Nat
  null_percentage : ℚ
  completeness : ℚ
  threshold : ℚ
  status : Status
  deriving DecidableEq, Repr

/-- A completeness result (`data_quality_validator.py:58-65`);
`check_type = 'COMPLETENESS'` and the wall-clock `timestamp` are constant
and omitted. -/
structure CompletenessResult where
  table : String
  total_rows : Nat
  columns : List ColumnCompleteness
  overall_status : Status
  deriving DecidableEq, Repr

/-- Body of the per-column loop of `check_completeness`
(`data_quality_validator.py:67-94`) for one `(column, null_count)` pair. -/
def completenessColumn (total_rows : Nat) (threshold : ℚ)
    (p : String × Nat) : ColumnCompleteness :=
  let null_percentage : ℚ := (p.2 : ℚ) * 100 / (total_rows : ℚ)
  let completeness : ℚ := 1 - null_percentage / 100
  { column_name := p.1
    null_count := p.2
    null_percentage := null_percentage
    completeness := completeness
    threshold := threshold
    status := if completeness ≥ threshold then .PASSED else .FAILED }

/-- Success path of `check_completeness` once every query has returned:
the loop appending per-column entries, with the `overall_status` flag that
the loop latches to `FAILED` rendered as `List.any`
(`data_quality_validator.py:58-97`). -/
def completeness_success (table : String) (total_rows : Nat)
    (pairs : List (String × Nat)) (threshold : ℚ) : CompletenessResult :=
  let cols := pairs.map (completenessColumn total_rows threshold)
  { table := table
    total_rows := total_rows
    columns := cols
    overall_status :=
      if cols.any (fun c => c.status = .FAILED) then .FAILED else .PASSED }

/-- The `try` body of `check_completeness`
(`data_quality_validator.py:46-97`).  Oracles, in execution order:
`describeQ` for `DESCRIBE TABLE` (only issued when `columns` is empty /
`None`), `totalQ` for the `COUNT(*)` query, `nullQ c` for the per-column
null-count query. -/
def check_completeness_body (describeQ : Except String (List String))
    (totalQ : Except String Nat) (nullQ : String → Except String Nat)
    (table : String) (columns : List String) (threshold : ℚ) :
    Except String CompletenessResult := do
  let cols ← if columns.isEmpty then describeQ else pure columns
  let total_rows ← totalQ
  let pairs ← cols.mapM (fun c => do
    let n ← nullQ c
    pure (c, n))
  pure (completeness_success table total_rows pairs threshold)

/-- `DataQualityValidator.check_completeness`
(`data_quality_validator.py:29-106`): the `try` body, with the `except`
clause returning the `ERROR` record. -/
def check_completeness (describeQ : Except String (List String))
    (totalQ : Except String Nat) (nullQ : String → Except String Nat)
    (table : String) (columns : List String) (threshold : ℚ := 95 / 100) :
    DQOutcome CompletenessResult :=
  match check_completeness_body describeQ totalQ nullQ table columns threshold with
  | .ok r => .ok r
  | .error e => .failed ⟨"COMPLETENESS", table, .ERROR, e⟩

/-- Per-column entry of a uniqueness result
(`data_quality_validator.py:154-161`).  The duplicate-count query returns
the three aggregates `COUNT(*)`, `COUNT(DISTINCT col)` and their
difference; the difference is reproduced here over `ℤ` from the two counts.
`round(·, 4)` on the ratio is display-only and omitted. -/
structure ColumnUniqueness where
  column_name : String
  total_count : Nat
  distinct_count : Nat
  duplicate_count : ℤ
  uniqueness_ratio : ℚ
  status : Status
  deriving DecidableEq, Repr

/-- A uniqueness result (`data_quality_validator.py:125-131`);
`check_type = 'UNIQUENESS'` and the timestamp are constant and omitted. -/
structure UniquenessResult where
  table : String
  columns : List ColumnUniqueness
  overall_status : Status
  deriving DecidableEq, Repr

/-- Body of the per-column loop of `check_uniqueness`
(`data_quality_validator.py:133-161`) for one
`(column, (total_count, distinct_count))` query result. -/
def uniquenessColumn (p : String × Nat × Nat) : ColumnUniqueness :=
  let total_count := p.2.1
  let distinct_count := p.2.2
  let duplicate_count : ℤ := (total_count : ℤ) - (distinct_count : ℤ)
  { column_name := p.1
    total_count := total_count
    distinct_count := distinct_count
    duplicate_count := duplicate_count
    uniqueness_ratio :=
      if total_count > 0 then (distinct_count : ℚ) / (total_count : ℚ) else 0
    status := if duplicate_count = 0 then .PASSED else .FAILED }

/-- Success path of `check_uniqueness` (`data_quality_validator.py:125-164`),
the loop's `overall_status` latch rendered as `List.any`. -/
def uniqueness_success (table : String) (pairs : List (String × Nat × Nat)) :
    UniquenessResult :=
  let cols := pairs.map uniquenessColumn
  { table := table
    columns := cols
    overall_status :=
      if cols.any (fun c => c.status = .FAILED) then .FAILED else .PASSED }

/-- The `try` body of `check_uniqueness`: one duplicate-count query per
column, returning `(COUNT(*), COUNT(DISTINCT col))`
(`data_quality_validator.py:124-164`). -/
def check_uniqueness_body (dupQ : String → Except String (Nat × Nat))
    (table : String) (columns : List String) :
    Except String UniquenessResult := do
  let pairs ← columns.mapM (fun c => do
    let r ← dupQ c
    pure (c, r))
  pure (uniqueness_success table pairs)

/-- `DataQualityValidator.check_uniqueness`
(`data_quality_validator.py:108-173`). -/
def check_uniqueness (dupQ : String → Except String (Nat × Nat))
    (table : String) (columns : List String) : DQOutcome UniquenessResult :=
  match check_uniqueness_body dupQ table columns with
  | .ok r => .ok r
  | .error e => .failed ⟨"UNIQUENESS", table, .ERROR, e⟩

/-- Per-rule entry of a validity result
(`data_quality_validator.py:220-227`). -/
structure RuleValidity where
  column_name : String
  rule : String
  total_count : Nat
  invalid_count : Nat
  validity_ratio : ℚ
  status : Status
  deriving DecidableEq, Repr

/-- A validity result (`data_quality_validator.py:192-198`). -/
structure ValidityResult where
  table : String
  rules : List RuleValidity
  overall_status : Status
  deriving DecidableEq, Repr

/-- Body of the per-rule loop of `check_validity`
(`data_quality_validator.py:200-227`) for one
`((column, rule), (total_count, invalid_count))` query result. -/
def validityRule (p : (String × String) × Nat × Nat) : RuleValidity :=
  let total_count := p.2.1
  let invalid_count := p.2.2
  { column_name := p.1.1
    rule := p.1.2
    total_count := total_count
    invalid_count := invalid_count
    validity_ratio :=
      if total_count > 0
      then ((total_count : ℚ) - (invalid_count : ℚ)) / (total_count : ℚ)
      else 0
    status := if invalid_count = 0 then .PASSED else .FAILED }

/-- Success path of `check_validity` (`data_quality_validator.py:192-230`). -/
def validity_success (table : String)
    (pairs : List ((String × String) × Nat × Nat)) : ValidityResult :=
  let rs := pairs.map validityRule
  { table := table
    rules := rs
    overall_status :=
      if rs.any (fun r => r.status = .FAILED) then .FAILED else .PASSED }

/-- The `try` body of `check_validity`: one invalid-count query per
`(column, rule)` pair (`data_quality_validator.py:191-230`). -/
def check_validity_body
    (invQ : String × String → Except String (Nat × Nat)) (table : String)
    (validation_rules : List (String × String)) :
    Except String ValidityResult := do
  let pairs ← validation_rules.mapM (fun cr => do
    let r ← invQ cr
    pure (cr, r))
  pure (validity_success table pairs)

/-- `DataQualityValidator.check_validity`
(`data_quality_validator.py:175-239`). -/
def check_validity (invQ : String × String → Except String (Nat × Nat))
    (table : String) (validation_rules : List (String × String)) :
    DQOutcome ValidityResult :=
  match check_validity_body invQ table validation_rules with
  | .ok r => .ok r
  | .error e => .failed ⟨"VALIDITY", table, .ERROR, e⟩

/-- Per-check entry of a consistency result
(`data_quality_validator.py:282-286`). -/
structure ConsistencyEntry where
  check_name : String
  inconsistent_count : ℤ
  status : Status
  deriving DecidableEq, Repr

/-- A consistency result (`data_quality_validator.py:258-264`). -/
structure ConsistencyResult where
  table : String
  checks : List ConsistencyEntry
  overall_status : Status
  deriving DecidableEq, Repr

/-- One iteration of the `check_consistency` loop for a check whose query
ran: `inconsistent_count = result[0].get('INCONSISTENT_COUNT', 0) if result
else 0` (`data_quality_validator.py:273-286`).  A row is modelled as
`Option ℤ`: its `INCONSISTENT_COUNT` value when the key is present. -/
def consistencyEntry (check_name : String) (rows : List (Option ℤ)) :
    ConsistencyEntry :=
  let inconsistent_count : ℤ :=
    match rows with
    | [] => 0
    | r :: _ => r.getD 0
  { check_name := check_name
    inconsistent_count := inconsistent_count
    status := if inconsistent_count = 0 then .PASSED else .FAILED }

/-- The `try` body of `check_consistency`: each check supplies a name and an
optional query (`check.get('query')`; `none` also models a missing or empty
query string, both falsy in `if not check_query: continue`); `connQ q` is
the rows the query returns (`data_quality_validator.py:257-289`). -/
def check_consistency_body
    (connQ : String → Except String (List (Option ℤ))) (table : String)
    (consistency_checks : List (String × Option String)) :
    Except String ConsistencyResult := do
  let entries ← consistency_checks.foldlM (fun acc ck =>
    match ck.2 with
    | none => pure acc
    | some q => do
      let rows ← connQ q
      pure (acc ++ [consistencyEntry ck.1 rows])) []
  pure
    { table := table
      checks := entries
      overall_status :=
        if entries.any (fun c => c.status = .FAILED) then .FAILED
        else .PASSED }

/-- `DataQualityValidator.check_consistency`
(`data_quality_validator.py:241-298`). -/
def check_consistency (connQ : String → Except String (List (Option ℤ)))
    (table : String)
    (consistency_checks : List (String × Option String)) :
    DQOutcome ConsistencyResult :=
  match check_consistency_body connQ table consistency_checks with
  | .ok r => .ok r
  | .error e => .failed ⟨"CONSISTENCY", table, .ERROR, e⟩

/-- A timeliness result (`data_quality_validator.py:332-341`);
`latest_timestamp` is kept as the string the source stores
(`str(latest_timestamp)`), `age_hours` as the integer `DATEDIFF` result. -/
structure TimelinessResult where
  table : String
  timestamp_column : String
  latest_timestamp : String
  age_hours : ℤ
  max_age_hours : ℤ
  status : Status
  deriving DecidableEq, Repr

/-- The `try` body of `check_timeliness`: one freshness query returning
`(MAX(ts) as a string, age_hours)` (`data_quality_validator.py:317-344`). -/
def check_timeliness_body (freshQ : Except String (String × ℤ))
    (table timestamp_column : String) (max_age_hours : ℤ) :
    Except String TimelinessResult := do
  let r ← freshQ
  pure
    { table := table
      timestamp_column := timestamp_column
      latest_timestamp := r.1
      age_hours := r.2
      max_age_hours := max_age_hours
      status := if r.2 ≤ max_age_hours then .PASSED else .FAILED }

/-- `DataQualityValidator.check_timeliness`
(`data_quality_validator.py:300-353`). -/
def check_timeliness (freshQ : Except String (String × ℤ))
    (table timestamp_column : String) (max_age_hours : ℤ := 24) :
    DQOutcome TimelinessResult :=
  match check_timeliness_body freshQ table timestamp_column max_age_hours with
  | .ok r => .ok r
  | .error e => .failed ⟨"TIMELINESS", table, .ERROR, e⟩

/-- Status extracted from one result dict by `generate_dq_report`:
`result.get('status', result.get('overall_status', 'UNKNOWN'))`
(`data_quality_validator.py:468`). -/
inductive ReportStatus where
  | PASSED
  | FAILED
  | ERROR
  | UNKNOWN
  deriving DecidableEq, Repr

/-- The summary report of `generate_dq_report`
(`data_quality_validator.py:458-465`); the wall-clock `report_timestamp`
and the `check_summary` echo of `(table, check_type, status)` triples are
omitted (no claim mentions them). -/
structure DQReport where
  total_checks : Nat
  passed_checks : Nat
  failed_checks : Nat
  error_checks : Nat
  success_rate : ℚ
  deriving DecidableEq, Repr

/-- One iteration of the tally loop of `generate_dq_report`
(`data_quality_validator.py:467-481`) over the running
`(passed, failed, errors)` counters. -/
def reportStep (acc : Nat × Nat × Nat) (s : ReportStatus) : Nat × Nat × Nat :=
  match s with
  | .PASSED => (acc.1 + 1, acc.2.1, acc.2.2)
  | .FAILED => (acc.1, acc.2.1 + 1, acc.2.2)
  | .ERROR => (acc.1, acc.2.1, acc.2.2 + 1)
  | .UNKNOWN => acc

/-- `DataQualityValidator.generate_dq_report`
(`data_quality_validator.py:448-486`): `total_checks = len(results)`, tally
the three counters over the list, then
`success_rate = passed_checks / total_checks if total_checks > 0 else 0`. -/
def generate_dq_report (results : List ReportStatus) : DQReport :=
  let c := results.foldl reportStep (0, 0, 0)
  { total_checks := results.length
    passed_checks := c.1
    failed_checks := c.2.1
    error_checks := c.2.2
    success_rate :=
      if results.length > 0 then (c.1 : ℚ) / (results.length : ℚ) else 0 }

end DataQualityValidator

/-!
## Metadata extractor (`src/metadata/metadata_extractor.py`)
-/

namespace MetadataExtractor

/-- What `extract_table_statistics` hands back to its caller: the Python
`None` of the fall-through path, the `{}` of the `except` clause, or the
statistics dict. -/
inductive StatsOutcome where
  | pyNone
  | emptyDict
  | stats (row_count distinct_rows : ℤ)
  deriving DecidableEq, Repr

/-- `MetadataExtractor.extract_table_statistics`
(`metadata_extractor.py:181-216`): run the statistics query; if it raises,
return `{}`; if it returns a non-empty row list, build the statistics dict
from the first row; if it returns zero rows, fall off the end of the
function (Python's implicit `None`).  A row is the
`(ROW_COUNT, DISTINCT_ROWS)` pair. -/
def extract_table_statistics (statsQ : Except String (List (ℤ × ℤ))) :
    StatsOutcome :=
  match statsQ with
  | .error _ => .emptyDict
  | .ok results =>
    match results with
    | [] => .pyNone
    | r :: _ => .stats r.1 r.2

end MetadataExtractor

/-!
## Theorems for the claims
-/

namespace MetadataExtractor

/-- C10: when the statistics query executes without raising but returns
zero rows, `extract_table_statistics` returns Python's implicit `None`
(the function body has no `return` on that path), not a mapping; the empty
mapping `{}` is returned exactly on the exception path. -/
theorem extract_table_statistics_spec (e : String) :
    extract_table_statistics (Except.ok []) = StatsOutcome.pyNone ∧
    extract_table_statistics (Except.error e) = StatsOutcome.emptyDict ∧
    (∀ q : Except String (List (ℤ × ℤ)),
      extract_table_statistics q = StatsOutcome.emptyDict ↔
        ∃ m, q = Except.error m) ∧
    StatsOutcome.pyNone ≠ StatsOutcome.emptyDict := by
  refine ⟨rfl, rfl, ?_, by simp⟩
  intro q
  match q with
  | .error m => simp [extract_table_statistics]
  | .ok [] => simp [extract_table_statistics]
  | .ok (r :: rs) => simp [extract_table_statistics]

end MetadataExtractor

namespace LineageTracker

/-- C7: for a table name absent from the lineage graph,
`get_upstream_lineage` and `get_downstream_lineage` return the empty `{}`
result — hence an empty ancestor/descendant list — and, being total
functions of the graph, do not raise; the lookup miss is not an error. -/
theorem lineage_missing_table_empty (g : DiGraph) (t : String) (d d' : Nat)
    (h : g.mem t = false) :
    get_upstream_lineage g t d = LineageResult.empty ∧
    get_downstream_lineage g t d' = LineageResult.empty ∧
    (get_upstream_lineage g t d).relatedList = [] ∧
    (get_downstream_lineage g t d').relatedList = [] := by
  simp [get_upstream_lineage, get_downstream_lineage, h,
    LineageResult.relatedList]

/-- Witness for C7 at the empty graph and the spec's `"unknown.table"`. -/
theorem lineage_missing_table_empty_witness :
    get_upstream_lineage DiGraph.empty "unknown.table" 5
      = LineageResult.empty ∧
    get_downstream_lineage DiGraph.empty "unknown.table" 5
      = LineageResult.empty ∧
    (get_upstream_lineage DiGraph.empty "unknown.table" 5).relatedList = [] ∧
    (get_downstream_lineage DiGraph.empty "unknown.table" 5).relatedList
      = [] :=
  lineage_missing_table_empty DiGraph.empty "unknown.table" 5 5 (by decide)

theorem mem_predecessors (g : DiGraph) (x t : String) :
    x ∈ g.predecessors t ↔ ∃ k, (x, t, k) ∈ g.edges := by
  unfold DiGraph.predecessors
  simp only [List.mem_map, List.mem_filter, decide_eq_true_eq]
  constructor
  · rintro ⟨⟨a, b, k⟩, ⟨he, ht⟩, rfl⟩
    simp only at ht
    subst ht
    exact ⟨k, he⟩
  · rintro ⟨k, hk⟩
    exact ⟨(x, t, k), ⟨hk, rfl⟩, rfl⟩

theorem mem_successors (g : DiGraph) (x t : String) :
    x ∈ g.successors t ↔ ∃ k, (t, x, k) ∈ g.edges := by
  unfold DiGraph.successors
  simp only [List.mem_map, List.mem_filter, decide_eq_true_eq]
  constructor
  · rintro ⟨⟨a, b, k⟩, ⟨he, ht⟩, rfl⟩
    simp only at ht
    subst ht
    exact ⟨k, he⟩
  · rintro ⟨k, hk⟩
    exact ⟨(t, x, k), ⟨hk, rfl⟩, rfl⟩

/-- C6: `get_upstream_lineage` and `get_downstream_lineage` are independent
of `max_depth`, and the ancestors/descendants they report are exactly the
tables with an edge into / out of the queried table — immediate, depth-1
neighbours only; multi-hop ancestors/descendants never appear. -/
theorem lineage_depth_one_only (g : DiGraph) (t : String) (d₁ d₂ : Nat) :
    get_upstream_lineage g t d₁ = get_upstream_lineage g t d₂ ∧
    get_downstream_lineage g t d₁ = get_downstream_lineage g t d₂ ∧
    (∀ x : String,
      (x, "DIRECT_UPSTREAM") ∈ (get_upstream_lineage g t d₁).relatedList ↔
        g.mem t = true ∧ ∃ k, (x, t, k) ∈ g.edges) ∧
    (∀ x : String,
      (x, "DIRECT_DOWNSTREAM")
          ∈ (get_downstream_lineage g t d₁).relatedList ↔
        g.mem t = true ∧ ∃ k, (t, x, k) ∈ g.edges) := by
  refine ⟨rfl, rfl, ?_, ?_⟩ <;> intro x
  · unfold get_upstream_lineage
    by_cases h : g.mem t
    · rw [← mem_predecessors g x t]
      simp [h, LineageResult.relatedList]
    · simp [h, LineageResult.relatedList]
  · unfold get_downstream_lineage
    by_cases h : g.mem t
    · rw [← mem_successors g x t]
      simp [h, LineageResult.relatedList]
    · simp [h, LineageResult.relatedList]

end LineageTracker

namespace LineageTracker

/-- Counterexample to C5: the lineage graph is a `networkx.DiGraph`, not a
multigraph.  Adding the edge `A.B.C → D.E.F` a second time (as when the
same dependency row is extracted in two runs,
`lineage_tracker.py:86`) does *not* append a second edge: the edge
collection still holds a single occurrence, not both. -/
theorem duplicate_edge_append_cex :
    (((DiGraph.empty.add_edge "A.B.C" "D.E.F" EdgeKind.DIRECT).add_edge
        "A.B.C" "D.E.F" EdgeKind.DIRECT).edges.length = 1) ∧
    ¬ (((DiGraph.empty.add_edge "A.B.C" "D.E.F" EdgeKind.DIRECT).add_edge
        "A.B.C" "D.E.F" EdgeKind.DIRECT).edges
      = (DiGraph.empty.add_edge "A.B.C" "D.E.F" EdgeKind.DIRECT).edges
          ++ [("A.B.C", "D.E.F", EdgeKind.DIRECT)]) := by
  constructor
  · rfl
  · decide

/-- C5 as amended: the lineage graph behaves as a *simple* directed graph.
`add_edge` makes the edge present, and adding a `(source, target)` edge
that is already present leaves the number of stored edges unchanged (only
the attribute tag is overwritten), so repeated extraction runs do not
accumulate duplicate edges. -/
theorem add_edge_dedup (g : DiGraph) (u v : String) (k k' : EdgeKind)
    (h : g.hasEdge u v = true) :
    (g.add_edge u v k).hasEdge u v = true ∧
    (g.add_edge u v k').edges.length = g.edges.length := by
  have hnodesE : ∀ (g' : DiGraph) (w : String),
      (g'.add_node w).edges = g'.edges := by
    intro g' w
    unfold DiGraph.add_node
    split <;> rfl
  have hEdges : ((g.add_node u).add_node v).edges = g.edges := by
    rw [hnodesE, hnodesE]
  have hHas : ((g.add_node u).add_node v).hasEdge u v = true := by
    unfold DiGraph.hasEdge
    rw [hEdges]
    exact h
  refine ⟨?_, ?_⟩
  · show DiGraph.hasEdge _ u v = true
    unfold DiGraph.add_edge
    rw [if_pos hHas]
    unfold DiGraph.hasEdge
    simp only [List.any_eq_true]
    unfold DiGraph.hasEdge at h
    simp only [List.any_eq_true, decide_eq_true_eq] at h
    obtain ⟨e, he, hp⟩ := h
    refine ⟨(u, v, k), ?_, by simp⟩
    have : e ∈ ((g.add_node u).add_node v).edges := by rw [hEdges]; exact he
    exact List.mem_map.mpr ⟨e, this, by simp [hp]⟩
  · unfold DiGraph.add_edge
    have hHas' : ((g.add_node u).add_node v).hasEdge u v = true := hHas
    rw [if_pos hHas']
    simp only [List.length_map, hEdges]

/-- Witness for C5's amended theorem at a one-edge graph. -/
theorem add_edge_dedup_witness :
    ((DiGraph.empty.add_edge "A.B.C" "D.E.F" EdgeKind.DIRECT).add_edge
        "A.B.C" "D.E.F" EdgeKind.QUERY_BASED).hasEdge "A.B.C" "D.E.F"
      = true ∧
    (((DiGraph.empty.add_edge "A.B.C" "D.E.F" EdgeKind.DIRECT).add_edge
        "A.B.C" "D.E.F" EdgeKind.QUERY_BASED).add_edge "A.B.C" "D.E.F"
        EdgeKind.DIRECT).edges.length
      = ((DiGraph.empty.add_edge "A.B.C" "D.E.F" EdgeKind.DIRECT).add_edge
        "A.B.C" "D.E.F" EdgeKind.QUERY_BASED).edges.length :=
  add_edge_dedup
    ((DiGraph.empty.add_edge "A.B.C" "D.E.F" EdgeKind.DIRECT).add_edge
      "A.B.C" "D.E.F" EdgeKind.QUERY_BASED)
    "A.B.C" "D.E.F" EdgeKind.DIRECT EdgeKind.DIRECT (by decide)

end LineageTracker

namespace LineageTracker

/-- Counterexample to C4: for
`"CREATE TABLE IF NOT EXISTS t AS SELECT * FROM s"` (as upper-cased by
`extract_query_history_lineage` before `_extract_target_tables` is called,
`lineage_tracker.py:135`), the target extraction does *not* yield `{T}`:
the first token after `CREATE TABLE` is `IF`, which the
`tokens[0] not in ['IF', 'OR']` guard skips without recovering the actual
table name, so nothing at all is added. -/
theorem create_target_if_not_exists_cex :
    extract_target_tables
        "CREATE TABLE IF NOT EXISTS T AS SELECT * FROM S".toList
      ≠ ["T".toList] ∧
    "T".toList ∉ extract_target_tables
        "CREATE TABLE IF NOT EXISTS T AS SELECT * FROM S".toList := by
  constructor
  · decide
  · decide

/-- C4 as amended: for
`"CREATE TABLE IF NOT EXISTS t AS SELECT * FROM s"` the target extraction
yields the *empty* set — the `IF` token is excluded as a false positive of
the `CREATE TABLE` pattern (so the result is not `{IF}`), but the actual
target `t` is not recovered either. -/
theorem create_target_if_not_exists_amended :
    extract_target_tables
        "CREATE TABLE IF NOT EXISTS T AS SELECT * FROM S".toList = [] ∧
    "IF".toList ∉ extract_target_tables
        "CREATE TABLE IF NOT EXISTS T AS SELECT * FROM S".toList := by
  constructor
  · decide
  · decide

end LineageTracker

namespace DataQualityValidator

theorem foldl_reportStep (results : List ReportStatus) (acc : Nat × Nat × Nat) :
    results.foldl reportStep acc =
      (acc.1 + results.countP (fun s => s = ReportStatus.PASSED),
       acc.2.1 + results.countP (fun s => s = ReportStatus.FAILED),
       acc.2.2 + results.countP (fun s => s = ReportStatus.ERROR)) := by
  induction results generalizing acc with
  | nil => simp
  | cons s rest ih =>
    rw [List.foldl_cons, ih]
    cases s <;>
      simp [reportStep, List.countP_cons] <;> omega

/-- C3: `generate_dq_report` reports `total_checks` equal to the number of
results, `passed_checks` / `failed_checks` / `error_checks` equal to the
number of results whose status is `PASSED` / `FAILED` / `ERROR`, and
`success_rate = passed_checks / total_checks` (0 for an empty list); on
statuses `[PASSED, PASSED, FAILED, ERROR]` it yields
`total=4, passed=2, failed=1, errors=1, success_rate=1/2`. -/
theorem generate_dq_report_spec (results : List ReportStatus) :
    (generate_dq_report results).total_checks = results.length ∧
    (generate_dq_report results).passed_checks
      = results.countP (fun s => s = ReportStatus.PASSED) ∧
    (generate_dq_report results).failed_checks
      = results.countP (fun s => s = ReportStatus.FAILED) ∧
    (generate_dq_report results).error_checks
      = results.countP (fun s => s = ReportStatus.ERROR) ∧
    (generate_dq_report results).success_rate
      = (if results.length > 0
         then ((generate_dq_report results).passed_checks : ℚ)
                / (results.length : ℚ)
         else 0) ∧
    generate_dq_report
        [ReportStatus.PASSED, ReportStatus.PASSED, ReportStatus.FAILED,
         ReportStatus.ERROR]
      = ⟨4, 2, 1, 1, 1 / 2⟩ := by
  refine ⟨rfl, ?_, ?_, ?_, ?_, ?_⟩
  · simp [generate_dq_report, foldl_reportStep]
  · simp [generate_dq_report, foldl_reportStep]
  · simp [generate_dq_report, foldl_reportStep]
  · simp [generate_dq_report, foldl_reportStep]
  · have hfold : List.foldl reportStep (0, 0, 0)
        [ReportStatus.PASSED, ReportStatus.PASSED, ReportStatus.FAILED,
         ReportStatus.ERROR] = (2, 1, 1) := rfl
    simp only [generate_dq_report, hfold, List.length_cons, List.length_nil]
    norm_num

end DataQualityValidator

namespace DataQualityValidator

theorem except_bind_ok {ε α β : Type} (a : α) (f : α → Except ε β) :
    (Except.ok a : Except ε α) >>= f = f a := rfl

theorem mapM_pair_ok {β : Type} (l : List String) (q : String → β) :
    (l.mapM (fun c => (pure (c, q c) : Except String (String × β))))
      = Except.ok (l.map (fun c => (c, q c))) := by
  induction l with
  | nil => rfl
  | cons a rest ih => rw [List.mapM_cons, ih]; rfl

theorem completenessColumn_spec (total_rows : Nat) (threshold : ℚ)
    (p : String × Nat) :
    (completenessColumn total_rows threshold p).column_name = p.1 ∧
    (completenessColumn total_rows threshold p).null_count = p.2 ∧
    (completenessColumn total_rows threshold p).completeness
      = 1 - (p.2 : ℚ) / (total_rows : ℚ) ∧
    ((completenessColumn total_rows threshold p).status = Status.FAILED ↔
      (completenessColumn total_rows threshold p).completeness
        < threshold) := by
  have hcompl : (completenessColumn total_rows threshold p).completeness
      = 1 - (p.2 : ℚ) / (total_rows : ℚ) := by
    show 1 - ((p.2 : ℚ) * 100 / (total_rows : ℚ)) / 100
        = 1 - (p.2 : ℚ) / (total_rows : ℚ)
    rw [div_div, mul_div_mul_right _ _ (by norm_num : (100 : ℚ) ≠ 0)]
  refine ⟨rfl, rfl, hcompl, ?_⟩
  show (if (completenessColumn total_rows threshold p).completeness ≥ threshold
      then Status.PASSED else Status.FAILED) = Status.FAILED ↔ _
  split <;> rename_i hge
  · simp only [iff_false_intro (not_lt.mpr hge)]
    exact iff_of_false (by simp) id
  · exact iff_of_true rfl (not_le.mp hge)

theorem completeness_success_overall (table : String) (total_rows : Nat)
    (pairs : List (String × Nat)) (threshold : ℚ) :
    (((completeness_success table total_rows pairs threshold).overall_status
        = Status.FAILED) ↔
      ∃ col ∈ (completeness_success table total_rows pairs threshold).columns,
        col.status = Status.FAILED) ∧
    (((completeness_success table total_rows pairs threshold).overall_status
        = Status.PASSED) ↔
      ∀ col ∈ (completeness_success table total_rows pairs
          threshold).columns, col.status ≠ Status.FAILED) := by
  unfold completeness_success
  simp only []
  cases hany : (pairs.map (completenessColumn total_rows threshold)).any
      (fun c => c.status = Status.FAILED) with
  | false =>
    rw [List.any_eq_false] at hany
    simp only [Bool.false_eq_true, if_false]
    constructor
    · exact iff_of_false (by simp) (by simpa using hany)
    · exact iff_of_true trivial (by simpa using hany)
  | true =>
    rw [List.any_eq_true] at hany
    simp only [if_true]
    constructor
    · exact iff_of_true trivial (by simpa using hany)
    · refine iff_of_false (by simp) ?_
      intro hall
      obtain ⟨c, hc, hs⟩ := hany
      exact hall c hc (by simpa using hs)

/-- C1: for a non-empty column list and a table with at least one row, when
every query succeeds `check_completeness` returns the success record built
from the queried counts, each column's `completeness` equals `1` minus that
column's null fraction of the total row count, a column's status is
`FAILED` exactly when its completeness is below the threshold, and the
table's `overall_status` is `FAILED` iff at least one column failed
(otherwise `PASSED`). -/
theorem check_completeness_spec (describeQ : Except String (List String))
    (table : String) (columns : List String) (threshold : ℚ)
    (total_rows : Nat) (nullCount : String → Nat)
    (hcols : columns ≠ []) (hrows : 0 < total_rows) :
    check_completeness describeQ (Except.ok total_rows)
        (fun c => Except.ok (nullCount c)) table columns threshold
      = DQOutcome.ok (completeness_success table total_rows
          (columns.map (fun c => (c, nullCount c))) threshold) ∧
    ((completeness_success table total_rows
        (columns.map (fun c => (c, nullCount c))) threshold).columns.map
        ColumnCompleteness.column_name = columns) ∧
    (∀ col ∈ (completeness_success table total_rows
        (columns.map (fun c => (c, nullCount c))) threshold).columns,
      col.completeness = 1 - (col.null_count : ℚ) / (total_rows : ℚ) ∧
      (col.status = Status.FAILED ↔ col.completeness < threshold)) ∧
    (((completeness_success table total_rows
        (columns.map (fun c => (c, nullCount c)))
        threshold).overall_status = Status.FAILED) ↔
      ∃ col ∈ (completeness_success table total_rows
          (columns.map (fun c => (c, nullCount c))) threshold).columns,
        col.status = Status.FAILED) ∧
    (((completeness_success table total_rows
        (columns.map (fun c => (c, nullCount c)))
        threshold).overall_status = Status.PASSED) ↔
      ∀ col ∈ (completeness_success table total_rows
          (columns.map (fun c => (c, nullCount c))) threshold).columns,
        col.status ≠ Status.FAILED) := by
  refine ⟨?_, ?_, ?_, (completeness_success_overall _ _ _ _).1,
    (completeness_success_overall _ _ _ _).2⟩
  · have hne : columns.isEmpty = false := by
      cases columns with
      | nil => exact absurd rfl hcols
      | cons a l => rfl
    unfold check_completeness check_completeness_body
    rw [if_neg (by simp [hne])]
    simp only [pure_bind, except_bind_ok, mapM_pair_ok columns nullCount]
    rfl
  · show ((columns.map (fun c => (c, nullCount c))).map
        (completenessColumn total_rows threshold)).map
        ColumnCompleteness.column_name = columns
    rw [List.map_map, List.map_map]
    show columns.map (fun c => c) = columns
    exact List.map_id' columns
  · intro col hcol
    rw [show (completeness_success table total_rows
        (columns.map (fun c => (c, nullCount c))) threshold).columns
      = (columns.map (fun c => (c, nullCount c))).map
          (completenessColumn total_rows threshold) from rfl] at hcol
    obtain ⟨p, hp, rfl⟩ := List.mem_map.mp hcol
    obtain ⟨-, hnull, hcompl, hstat⟩ :=
      completenessColumn_spec total_rows threshold p
    exact ⟨by rw [hcompl, hnull], hstat⟩

/-- Witness for C1 at a two-column table with ten rows, one null in
column `A`. -/
theorem check_completeness_spec_witness :
    check_completeness (Except.ok []) (Except.ok 10)
        (fun c => Except.ok (if c = "A" then 1 else 0)) "D.S.T" ["A", "B"]
        (95 / 100)
      = DQOutcome.ok (completeness_success "D.S.T" 10
          ((["A", "B"] : List String).map
            (fun c => (c, if c = "A" then 1 else 0))) (95 / 100)) :=
  (check_completeness_spec (Except.ok []) "D.S.T" ["A", "B"] (95 / 100) 10
    (fun c => if c = "A" then 1 else 0) (by decide) (by decide)).1

theorem uniquenessColumn_spec (p : String × Nat × Nat) :
    (uniquenessColumn p).column_name = p.1 ∧
    (uniquenessColumn p).total_count = p.2.1 ∧
    (uniquenessColumn p).distinct_count = p.2.2 ∧
    (uniquenessColumn p).duplicate_count
      = ((uniquenessColumn p).total_count : ℤ)
          - ((uniquenessColumn p).distinct_count : ℤ) ∧
    ((uniquenessColumn p).status = Status.FAILED ↔
      (uniquenessColumn p).duplicate_count ≠ 0) := by
  refine ⟨rfl, rfl, rfl, rfl, ?_⟩
  show (if ((p.2.1 : ℤ) - (p.2.2 : ℤ) : ℤ) = 0
      then Status.PASSED else Status.FAILED) = Status.FAILED ↔ _
  split <;> rename_i h0
  · exact iff_of_false (by simp) (by simpa using h0)
  · exact iff_of_true rfl h0

theorem uniqueness_success_overall (table : String)
    (pairs : List (String × Nat × Nat)) :
    (((uniqueness_success table pairs).overall_status = Status.FAILED) ↔
      ∃ col ∈ (uniqueness_success table pairs).columns,
        col.status = Status.FAILED) ∧
    (((uniqueness_success table pairs).overall_status = Status.PASSED) ↔
      ∀ col ∈ (uniqueness_success table pairs).columns,
        col.status ≠ Status.FAILED) := by
  unfold uniqueness_success
  simp only []
  cases hany : (pairs.map uniquenessColumn).any
      (fun c => c.status = Status.FAILED) with
  | false =>
    rw [List.any_eq_false] at hany
    simp only [Bool.false_eq_true, if_false]
    constructor
    · exact iff_of_false (by simp) (by simpa using hany)
    · exact iff_of_true trivial (by simpa using hany)
  | true =>
    rw [List.any_eq_true] at hany
    simp only [if_true]
    constructor
    · exact iff_of_true trivial (by simpa using hany)
    · refine iff_of_false (by simp) ?_
      intro hall
      obtain ⟨c, hc, hs⟩ := hany
      exact hall c hc (by simpa using hs)

/-- C2: when every duplicate-count query succeeds, `check_uniqueness`
returns the success record built from the queried counts; every reported
column has `duplicate_count = total_count - distinct_count`, its status is
`FAILED` iff `duplicate_count ≠ 0`, and the table's `overall_status` is
`FAILED` iff some column failed (otherwise `PASSED`). -/
theorem check_uniqueness_spec (table : String) (columns : List String)
    (counts : String → Nat × Nat) :
    check_uniqueness (fun c => Except.ok (counts c)) table columns
      = DQOutcome.ok (uniqueness_success table
          (columns.map (fun c => (c, counts c)))) ∧
    ((uniqueness_success table
        (columns.map (fun c => (c, counts c)))).columns.map
        ColumnUniqueness.column_name = columns) ∧
    (∀ col ∈ (uniqueness_success table
        (columns.map (fun c => (c, counts c)))).columns,
      col.duplicate_count
          = (col.total_count : ℤ) - (col.distinct_count : ℤ) ∧
      (col.status = Status.FAILED ↔ col.duplicate_count ≠ 0)) ∧
    (((uniqueness_success table
        (columns.map (fun c => (c, counts c)))).overall_status
        = Status.FAILED) ↔
      ∃ col ∈ (uniqueness_success table
          (columns.map (fun c => (c, counts c)))).columns,
        col.status = Status.FAILED) ∧
    (((uniqueness_success table
        (columns.map (fun c => (c, counts c)))).overall_status
        = Status.PASSED) ↔
      ∀ col ∈ (uniqueness_success table
          (columns.map (fun c => (c, counts c)))).columns,
        col.status ≠ Status.FAILED) := by
  refine ⟨?_, ?_, ?_, (uniqueness_success_overall _ _).1,
    (uniqueness_success_overall _ _).2⟩
  · unfold check_uniqueness check_uniqueness_body
    simp only [pure_bind, except_bind_ok, mapM_pair_ok columns counts]
    rfl
  · show ((columns.map (fun c => (c, counts c))).map
        uniquenessColumn).map ColumnUniqueness.column_name = columns
    rw [List.map_map, List.map_map]
    show columns.map (fun c => c) = columns
    exact List.map_id' columns
  · intro col hcol
    rw [show (uniqueness_success table
        (columns.map (fun c => (c, counts c)))).columns
      = (columns.map (fun c => (c, counts c))).map uniquenessColumn
      from rfl] at hcol
    obtain ⟨p, hp, rfl⟩ := List.mem_map.mp hcol
    obtain ⟨-, -, -, hdup, hstat⟩ := uniquenessColumn_spec p
    exact ⟨hdup, hstat⟩

/-- C8: whenever the `try` body of a check method fails — i.e. some
underlying query raised, making the sequenced computation an
`Except.error` — the method does not re-raise: for each of the five check
methods the returned record is the `ERROR`-status record carrying the
error message, so callers iterating over tables/checks never crash. -/
theorem checks_fail_soft
    (describeQ : Except String (List String)) (totalQ : Except String Nat)
    (nullQ : String → Except String Nat)
    (dupQ : String → Except String (Nat × Nat))
    (invQ : String × String → Except String (Nat × Nat))
    (connQ : String → Except String (List (Option ℤ)))
    (freshQ : Except String (String × ℤ))
    (table timestamp_column : String) (columns : List String)
    (validation_rules : List (String × String))
    (consistency_checks : List (String × Option String))
    (threshold : ℚ) (max_age_hours : ℤ) (m₁ m₂ m₃ m₄ m₅ : String)
    (h₁ : check_completeness_body describeQ totalQ nullQ table columns
        threshold = Except.error m₁)
    (h₂ : check_uniqueness_body dupQ table columns = Except.error m₂)
    (h₃ : check_validity_body invQ table validation_rules
        = Except.error m₃)
    (h₄ : check_consistency_body connQ table consistency_checks
        = Except.error m₄)
    (h₅ : check_timeliness_body freshQ table timestamp_column max_age_hours
        = Except.error m₅) :
    check_completeness describeQ totalQ nullQ table columns threshold
      = DQOutcome.failed ⟨"COMPLETENESS", table, Status.ERROR, m₁⟩ ∧
    check_uniqueness dupQ table columns
      = DQOutcome.failed ⟨"UNIQUENESS", table, Status.ERROR, m₂⟩ ∧
    check_validity invQ table validation_rules
      = DQOutcome.failed ⟨"VALIDITY", table, Status.ERROR, m₃⟩ ∧
    check_consistency connQ table consistency_checks
      = DQOutcome.failed ⟨"CONSISTENCY", table, Status.ERROR, m₄⟩ ∧
    check_timeliness freshQ table timestamp_column max_age_hours
      = DQOutcome.failed ⟨"TIMELINESS", table, Status.ERROR, m₅⟩ := by
  refine ⟨?_, ?_, ?_, ?_, ?_⟩
  · unfold check_completeness
    rw [h₁]
  · unfold check_uniqueness
    rw [h₂]
  · unfold check_validity
    rw [h₃]
  · unfold check_consistency
    rw [h₄]
  · unfold check_timeliness
    rw [h₅]

/-- Witness for C8: every oracle raises `"boom"`; all five methods return
their `ERROR` record. -/
theorem checks_fail_soft_witness :
    check_completeness (Except.ok []) (Except.error "boom")
        (fun _ => Except.ok 0) "D.S.T" ["C"] (95 / 100)
      = DQOutcome.failed ⟨"COMPLETENESS", "D.S.T", Status.ERROR, "boom"⟩ ∧
    check_uniqueness (fun _ => Except.error "boom") "D.S.T" ["C"]
      = DQOutcome.failed ⟨"UNIQUENESS", "D.S.T", Status.ERROR, "boom"⟩ ∧
    check_validity (fun _ => Except.error "boom") "D.S.T" [("C", "C > 0")]
      = DQOutcome.failed ⟨"VALIDITY", "D.S.T", Status.ERROR, "boom"⟩ ∧
    check_consistency (fun _ => Except.error "boom") "D.S.T"
        [("orphan_rows", some "SELECT COUNT(*)")]
      = DQOutcome.failed ⟨"CONSISTENCY", "D.S.T", Status.ERROR, "boom"⟩ ∧
    check_timeliness (Except.error "boom") "D.S.T" "UPDATED_AT" 24
      = DQOutcome.failed ⟨"TIMELINESS", "D.S.T", Status.ERROR, "boom"⟩ :=
  checks_fail_soft (Except.ok []) (Except.error "boom")
    (fun _ => Except.ok 0) (fun _ => Except.error "boom")
    (fun _ => Except.error "boom") (fun _ => Except.error "boom")
    (Except.error "boom") "D.S.T" "UPDATED_AT" ["C"] [("C", "C > 0")]
    [("orphan_rows", some "SELECT COUNT(*)")] (95 / 100) 24
    "boom" "boom" "boom" "boom" "boom"
    rfl rfl rfl rfl rfl

end DataQualityValidator

namespace LineageTracker

open Py

/-- The candidate source names the spec describes: for each `FROM`/`JOIN`
variant keyword present in the query text, the first whitespace token of
each piece following a keyword occurrence, stripped of surrounding
`'(),;'` punctuation.  This is the comparison definition for C9, written
from the spec's words ("tokens following `FROM`/`JOIN` variants"), before
the dot filter is applied. -/
def sourceCandidateTokens (query_text : PyStr) : List PyStr :=
  (sourceKeywords.filter (fun kw => containsSub kw query_text)).flatMap
    (fun kw => ((pySplit kw query_text).drop 1).filterMap
      (fun part => ((pyWords part).head?).map (pyStrip tablePunct)))

theorem mem_scan_parts (parts sources : List PyStr) (t : PyStr) :
    (t ∈ parts.foldl (fun sources part =>
      match (pyWords part).head? with
      | none => sources
      | some tok =>
        let table_name := pyStrip tablePunct tok
        if table_name.contains '.' then setAdd sources table_name
        else sources) sources) ↔
    t ∈ sources ∨ ∃ part ∈ parts,
      ((pyWords part).head?).map (pyStrip tablePunct) = some t ∧
      t.contains '.' = true := by
  induction parts generalizing sources with
  | nil => simp
  | cons p ps ih =>
    rw [List.foldl_cons, ih, List.exists_mem_cons_iff]
    cases hh : (pyWords p).head? with
    | none => simp [hh]
    | some tok =>
      simp only [hh, Option.map_some']
      by_cases hdot : (pyStrip tablePunct tok).contains '.'
      · rw [if_pos hdot, mem_setAdd]
        constructor
        · rintro ((hs | rfl) | hex)
          · exact Or.inl hs
          · exact Or.inr (Or.inl ⟨rfl, hdot⟩)
          · exact Or.inr (Or.inr hex)
        · rintro (hs | (⟨heq, hd⟩ | hex))
          · exact Or.inl (Or.inl hs)
          · obtain rfl := Option.some.inj heq
            exact Or.inl (Or.inr rfl)
          · exact Or.inr hex
      · rw [if_neg hdot]
        constructor
        · rintro (hs | hex)
          exacts [Or.inl hs, Or.inr (Or.inr hex)]
        · rintro (hs | (⟨heq, hd⟩ | hex))
          · exact Or.inl hs
          · obtain rfl := Option.some.inj heq
            exact absurd hd hdot
          · exact Or.inr hex

theorem mem_scan_keywords (q : PyStr) (kws : List PyStr)
    (sources : List PyStr) (t : PyStr) :
    (t ∈ kws.foldl (fun sources keyword =>
      if containsSub keyword q then sourceScanKeyword q sources keyword
      else sources) sources) ↔
    t ∈ sources ∨ ∃ kw ∈ kws, containsSub kw q = true ∧
      ∃ part ∈ (pySplit kw q).drop 1,
        ((pyWords part).head?).map (pyStrip tablePunct) = some t ∧
        t.contains '.' = true := by
  induction kws generalizing sources with
  | nil => simp
  | cons kw kws ih =>
    rw [List.foldl_cons, ih, List.exists_mem_cons_iff]
    by_cases hc : containsSub kw q
    · rw [if_pos hc]
      unfold sourceScanKeyword
      rw [mem_scan_parts]
      constructor
      · rintro ((hs | hpart) | hex)
        · exact Or.inl hs
        · exact Or.inr (Or.inl ⟨hc, hpart⟩)
        · exact Or.inr (Or.inr hex)
      · rintro (hs | (⟨-, hpart⟩ | hex))
        · exact Or.inl (Or.inl hs)
        · exact Or.inl (Or.inr hpart)
        · exact Or.inr hex
    · rw [if_neg hc]
      constructor
      · rintro (hs | hex)
        exacts [Or.inl hs, Or.inr (Or.inr hex)]
      · rintro (hs | (⟨hc', -⟩ | hex))
        · exact Or.inl hs
        · exact absurd hc' hc
        · exact Or.inr hex

/-- C9: the source-table extraction returns exactly the candidate tokens
that follow a `FROM`/`JOIN` keyword (first whitespace token after an
occurrence, stripped of surrounding `'(),;'` punctuation) *and* contain a
`'.'`; in particular a bare table name without a database/schema dot
prefix is never in the source set. -/
theorem extract_source_tables_spec (query_text t : PyStr) :
    (t ∈ extract_source_tables query_text ↔
      t ∈ sourceCandidateTokens query_text ∧ t.contains '.' = true) ∧
    (∀ s ∈ extract_source_tables query_text, s.contains '.' = true) := by
  have hmain : ∀ u : PyStr, u ∈ extract_source_tables query_text ↔
      u ∈ sourceCandidateTokens query_text ∧ u.contains '.' = true := by
    intro u
    unfold extract_source_tables
    rw [mem_scan_keywords]
    simp only [List.not_mem_nil, false_or]
    unfold sourceCandidateTokens
    rw [List.mem_flatMap]
    constructor
    · rintro ⟨kw, hkw, hc, part, hpart, heq, hdot⟩
      refine ⟨⟨kw, List.mem_filter.mpr ⟨hkw, hc⟩,
        List.mem_filterMap.mpr ⟨part, hpart, heq⟩⟩, hdot⟩
    · rintro ⟨⟨kw, hkw, hmem⟩, hdot⟩
      rw [List.mem_filter] at hkw
      obtain ⟨part, hpart, heq⟩ := List.mem_filterMap.mp hmem
      exact ⟨kw, hkw.1, hkw.2, part, hpart, heq, hdot⟩
  exact ⟨hmain t, fun s hs => ((hmain s).mp hs).2⟩

end LineageTracker
